import Mathlib

/-!
Verification of the `HttpEventBridgeIntegration` construct
(`aws-apigatewayv2-integrations/lib/http/eventbridge.ts`).

The construct's `bind` method creates an IAM role trusted by the API
Gateway service principal, attaches a single `events:PutEvents` policy
statement scoped either to the supplied event bus ARN or to a wildcard
ARN over all event buses of the current partition/region/account, and
returns an integration config with fixed literal fields and either the
caller-supplied parameter mapping or a synthesized default mapping.

The embedding below follows the TypeScript source line by line.  Pieces
of the surrounding framework that the source calls into (the
`ParameterMapping` builder, `Stack.formatArn`, IAM role construction,
event-bus import by ARN, and the construct tree's duplicate-id check)
are modelled from the specification, as noted on each definition.
-/

namespace AwsCdk

/-- Modelled from the spec: a `ParameterMapping` is an ordered mapping of
string key to string value; keys are case-sensitive and last write wins
for a key. -/
structure ParameterMapping where
  mappings : List (String × String)
deriving Repr, DecidableEq

/-- Insert a key-value pair into an ordered association list, overwriting
in place when the key is already present (last write wins). -/
def setEntry : List (String × String) → String → String → List (String × String)
  | [], k, v => [(k, v)]
  | (k0, v0) :: rest, k, v =>
    if k0 = k then (k, v) :: rest else (k0, v0) :: setEntry rest k v

/-- Modelled from the spec: `ParameterMapping.custom(key, value)` records
the mapping entry and returns the mapping. -/
def ParameterMapping.custom (m : ParameterMapping) (k v : String) : ParameterMapping :=
  ⟨setEntry m.mappings k v⟩

/-- The empty parameter mapping (`new ParameterMapping()`). -/
def ParameterMapping.empty : ParameterMapping := ⟨[]⟩

/-- Modelled from the spec: an event bus handle exposes an identifier
attribute (`eventBusArn`) and a name attribute (`eventBusName`). -/
structure EventBus where
  eventBusArn : String
  eventBusName : String
deriving Repr, DecidableEq

/-- Split a character list at every occurrence of the separator. -/
def splitOnChar (c : Char) : List Char → List (List Char)
  | [] => [[]]
  | x :: xs =>
    let r := splitOnChar c xs
    if x = c then [] :: r
    else
      match r with
      | [] => [[x]]
      | y :: ys => (x :: y) :: ys

/-- The characters after the first slash (empty when there is none). -/
def afterFirstSlash : List Char → List Char
  | [] => []
  | c :: cs => if c = '/' then cs else afterFirstSlash cs

/-- Modelled from the spec: the name parsed out of an event-bus ARN of the
form `arn:partition:events:region:account:event-bus/name` is the part of
the sixth colon-separated component after the first slash. -/
def parseEventBusNameFromArn (arn : String) : String :=
  let resourcePart := (splitOnChar ':' arn.data).getD 5 []
  String.mk (afterFirstSlash resourcePart)

/-- Modelled from the spec: importing an event bus known only by its ARN
(`EventBus.fromEventBusArn`) yields a handle whose name attribute is the
resource name parsed out of that ARN. -/
def fromEventBusArn (arn : String) : EventBus :=
  ⟨arn, parseEventBusNameFromArn arn⟩

/-- The enclosing stack's environment, used for ARN construction. -/
structure Stack where
  partition : String
  region : String
  account : String
deriving Repr, DecidableEq

/-- Modelled from the spec: `Stack.formatArn` with a service, resource
type and resource name builds
`arn:partition:service:region:account:resource/resourceName`. -/
def Stack.formatArn (s : Stack) (service resource resourceName : String) : String :=
  "arn:" ++ s.partition ++ ":" ++ service ++ ":" ++ s.region ++ ":" ++ s.account
    ++ ":" ++ resource ++ "/" ++ resourceName

/-- IAM policy statement effect. -/
inductive Effect where
  | allow
  | deny
deriving Repr, DecidableEq

/-- An IAM policy statement (`iam.PolicyStatement`). -/
structure PolicyStatement where
  effect : Effect
  sid : String
  actions : List String
  resources : List String
deriving Repr, DecidableEq

/-- A statement of a role's trust (assume-role) policy. -/
structure TrustStatement where
  action : String
  effect : Effect
  principalService : String
deriving Repr, DecidableEq

/-- Modelled from the spec: an IAM role created under a scope, with its
construct id, its trust policy and its attached policy statements. -/
structure Role where
  constructId : String
  assumeRolePolicy : List TrustStatement
  policyStatements : List PolicyStatement
deriving Repr, DecidableEq

/-- Modelled from the spec: `new iam.Role(scope, id, { assumedBy:
new ServicePrincipal(service) })` yields a role whose trust policy is the
single statement allowing that service to assume the role. -/
def newIamRole (id service : String) : Role :=
  ⟨id, [⟨"sts:AssumeRole", Effect.allow, service⟩], []⟩

/-- `role.addToPolicy(statement)` appends the statement to the role's
attached policy. -/
def Role.addToPolicy (r : Role) (s : PolicyStatement) : Role :=
  ⟨r.constructId, r.assumeRolePolicy, r.policyStatements ++ [s]⟩

/-- Properties of `HttpEventBridgeIntegration`: both fields optional. -/
structure HttpEventBridgeIntegrationProps where
  parameterMapping : Option ParameterMapping
  eventBus : Option EventBus
deriving Repr, DecidableEq

/-- The binding context passed to `bind`: the scope under which the role
is created (represented by the construct ids of its existing children)
and the route's stack. -/
structure HttpRouteIntegrationBindOptions where
  scopeChildren : List String
  stack : Stack
deriving Repr, DecidableEq

/-- The `HttpRouteIntegrationConfig` returned by `bind`. -/
structure HttpRouteIntegrationConfig where
  payloadFormatVersion : String
  type : String
  subtype : String
  credentials : Role
  connectionType : String
  parameterMapping : ParameterMapping
deriving Repr, DecidableEq

/-- The observable outcome of one `bind` invocation: the created role,
the returned config, and the scope's children after the invocation. -/
structure BindResult where
  invokeRole : Role
  config : HttpRouteIntegrationConfig
  scopeChildren : List String
deriving Repr, DecidableEq

/-- `createDefaultParameterMapping`: maps `Detail`, `DetailType`, `Source`
from the request body, and appends `EventBusName` mapped to the bus name
when an event bus was supplied. -/
def createDefaultParameterMapping (props : HttpEventBridgeIntegrationProps) :
    ParameterMapping :=
  let mapping :=
    (((ParameterMapping.empty).custom "Detail" "$request.body.Detail").custom
      "DetailType" "$request.body.DetailType").custom
      "Source" "$request.body.Source"
  match props.eventBus with
  | some bus => mapping.custom "EventBusName" bus.eventBusName
  | none => mapping

/-- The body of `bind`, assuming role creation under the scope succeeds:
create the invoke role trusted by `apigateway.amazonaws.com`, resolve
the event bus ARN (supplied bus's ARN, else the wildcard ARN over all
event buses of the stack's partition/region/account), attach the single
`events:PutEvents` statement, and assemble the config. -/
def bindPure (props : HttpEventBridgeIntegrationProps)
    (options : HttpRouteIntegrationBindOptions) : BindResult :=
  let role0 := newIamRole "InvokeRole" "apigateway.amazonaws.com"
  let eventBusArn :=
    match props.eventBus with
    | some bus => bus.eventBusArn
    | none => options.stack.formatArn "events" "event-bus" "*"
  let invokeRole := role0.addToPolicy
    ⟨Effect.allow, "AllowEventBridgePutEvents", ["events:PutEvents"], [eventBusArn]⟩
  { invokeRole := invokeRole
    config :=
      { payloadFormatVersion := "1.0"
        type := "AWS_PROXY"
        subtype := "EventBridge-PutEvents"
        credentials := invokeRole
        connectionType := "INTERNET"
        parameterMapping :=
          props.parameterMapping.getD (createDefaultParameterMapping props) }
    scopeChildren := options.scopeChildren ++ ["InvokeRole"] }

/-- `bind`: creating the role is the only fallible step; the construct
tree (modelled from the spec) rejects a second child with the fixed id
`InvokeRole` under the same scope, and otherwise `bind` is the pure
computation `bindPure`. -/
def bind (props : HttpEventBridgeIntegrationProps)
    (options : HttpRouteIntegrationBindOptions) : Except String BindResult :=
  if options.scopeChildren.contains "InvokeRole" then
    Except.error "There is already a Construct with name InvokeRole"
  else
    Except.ok (bindPure props options)

/-- A sample stack environment used by witnesses. -/
def sampleStack : Stack := ⟨"aws", "us-east-1", "123456789012"⟩

/-- A sample event bus used by witnesses. -/
def sampleBus : EventBus :=
  ⟨"arn:aws:events:us-east-1:123456789012:event-bus/my-bus", "my-bus"⟩

/-- Sample bind options with a fresh scope, used by witnesses. -/
def sampleOptions : HttpRouteIntegrationBindOptions := ⟨[], sampleStack⟩

end AwsCdk

namespace AwsCdk

/-- A sample custom parameter mapping used by witnesses. -/
def sampleMapping : ParameterMapping :=
  ParameterMapping.empty.custom "Detail" "$request.body.detail"

/-- On a scope with no child named `InvokeRole`, role creation succeeds and
`bind` returns the result of the pure computation `bindPure`. -/
theorem bind_ok_of_fresh (props : HttpEventBridgeIntegrationProps)
    (options : HttpRouteIntegrationBindOptions)
    (hfresh : "InvokeRole" ∉ options.scopeChildren) :
    bind props options = Except.ok (bindPure props options) := by
  simp only [bind]
  rw [if_neg (by simpa using hfresh)]

/-- On a scope that already has a child named `InvokeRole`, role creation
fails with the duplicate-construct-id error. -/
theorem bind_error_of_dup (props : HttpEventBridgeIntegrationProps)
    (options : HttpRouteIntegrationBindOptions)
    (hdup : "InvokeRole" ∈ options.scopeChildren) :
    bind props options =
      Except.error "There is already a Construct with name InvokeRole" := by
  simp [bind, hdup]

/-- Claim C1: with no custom parameter mapping and a supplied event bus of
ARN `I` and name `N`, the returned config's mapping has exactly the four
keys `Detail`, `DetailType`, `Source`, `EventBusName`, the first three
mapped to their request-body locations and `EventBusName` mapped to `N`,
and the permission statement's sole resource equals `I` exactly. -/
theorem bind_default_mapping_with_bus (bus : EventBus)
    (options : HttpRouteIntegrationBindOptions)
    (hfresh : "InvokeRole" ∉ options.scopeChildren) :
    Except.map
      (fun r => (r.config.parameterMapping.mappings,
        r.invokeRole.policyStatements.map (fun s => s.resources)))
      (bind ⟨none, some bus⟩ options) =
    Except.ok ([("Detail", "$request.body.Detail"),
      ("DetailType", "$request.body.DetailType"),
      ("Source", "$request.body.Source"),
      ("EventBusName", bus.eventBusName)], [[bus.eventBusArn]]) := by
  rw [bind_ok_of_fresh _ _ hfresh]; rfl

/-- Witness for claim C1 at a concrete event bus and a fresh scope. -/
theorem bind_default_mapping_with_bus_witness :
    ("InvokeRole" ∉ sampleOptions.scopeChildren) ∧
    Except.map
      (fun r => (r.config.parameterMapping.mappings,
        r.invokeRole.policyStatements.map (fun s => s.resources)))
      (bind ⟨none, some sampleBus⟩ sampleOptions) =
    Except.ok ([("Detail", "$request.body.Detail"),
      ("DetailType", "$request.body.DetailType"),
      ("Source", "$request.body.Source"),
      ("EventBusName", "my-bus")],
      [["arn:aws:events:us-east-1:123456789012:event-bus/my-bus"]]) :=
  ⟨by decide, bind_default_mapping_with_bus sampleBus sampleOptions (by decide)⟩

/-- Claim C2: with no custom parameter mapping and no event bus, the
returned config's mapping has exactly the three keys `Detail`,
`DetailType`, `Source` mapped to their request-body locations (no
`EventBusName` entry), and the permission statement's sole resource is the
wildcard ARN built from the stack's partition, region and account. -/
theorem bind_default_mapping_without_bus
    (options : HttpRouteIntegrationBindOptions)
    (hfresh : "InvokeRole" ∉ options.scopeChildren) :
    Except.map
      (fun r => (r.config.parameterMapping.mappings,
        r.invokeRole.policyStatements.map (fun s => s.resources)))
      (bind ⟨none, none⟩ options) =
    Except.ok ([("Detail", "$request.body.Detail"),
      ("DetailType", "$request.body.DetailType"),
      ("Source", "$request.body.Source")],
      [["arn:" ++ options.stack.partition ++ ":" ++ "events" ++ ":"
        ++ options.stack.region ++ ":" ++ options.stack.account
        ++ ":" ++ "event-bus" ++ "/" ++ "*"]]) := by
  rw [bind_ok_of_fresh _ _ hfresh]; rfl

/-- Witness for claim C2 at a concrete stack environment. -/
theorem bind_default_mapping_without_bus_witness :
    ("InvokeRole" ∉ sampleOptions.scopeChildren) ∧
    Except.map
      (fun r => (r.config.parameterMapping.mappings,
        r.invokeRole.policyStatements.map (fun s => s.resources)))
      (bind ⟨none, none⟩ sampleOptions) =
    Except.ok ([("Detail", "$request.body.Detail"),
      ("DetailType", "$request.body.DetailType"),
      ("Source", "$request.body.Source")],
      [["arn:aws:events:us-east-1:123456789012:event-bus/*"]]) :=
  ⟨by decide, bind_default_mapping_without_bus sampleOptions (by decide)⟩

/-- Claim C3: whenever a custom parameter mapping is supplied, the
returned config's mapping is that custom mapping verbatim, whether or not
an event bus was supplied. -/
theorem bind_custom_mapping_verbatim (pm : ParameterMapping)
    (b : Option EventBus) (options : HttpRouteIntegrationBindOptions)
    (hfresh : "InvokeRole" ∉ options.scopeChildren) :
    Except.map (fun r => r.config.parameterMapping)
      (bind ⟨some pm, b⟩ options) = Except.ok pm := by
  rw [bind_ok_of_fresh _ _ hfresh]; rfl

/-- Witness for claim C3 at a concrete custom mapping, both with and
without an event bus. -/
theorem bind_custom_mapping_verbatim_witness :
    ("InvokeRole" ∉ sampleOptions.scopeChildren) ∧
    Except.map (fun r => r.config.parameterMapping)
      (bind ⟨some sampleMapping, some sampleBus⟩ sampleOptions) =
      Except.ok sampleMapping ∧
    Except.map (fun r => r.config.parameterMapping)
      (bind ⟨some sampleMapping, none⟩ sampleOptions) =
      Except.ok sampleMapping :=
  ⟨by decide,
    bind_custom_mapping_verbatim sampleMapping (some sampleBus) sampleOptions
      (by decide),
    bind_custom_mapping_verbatim sampleMapping none sampleOptions (by decide)⟩

/-- Claim C4: every bind attaches exactly one policy statement, with
effect Allow, the single action `events:PutEvents`, and exactly one
resource entry: the supplied bus's ARN, or else the wildcard ARN. -/
theorem bind_policy_statement_minimal (props : HttpEventBridgeIntegrationProps)
    (options : HttpRouteIntegrationBindOptions)
    (hfresh : "InvokeRole" ∉ options.scopeChildren) :
    Except.map (fun r => r.invokeRole.policyStatements) (bind props options) =
    Except.ok [⟨Effect.allow, "AllowEventBridgePutEvents", ["events:PutEvents"],
      [match props.eventBus with
       | some bus => bus.eventBusArn
       | none => options.stack.formatArn "events" "event-bus" "*"]⟩] := by
  rw [bind_ok_of_fresh _ _ hfresh]; rfl

/-- Witness for claim C4 at a concrete event bus. -/
theorem bind_policy_statement_minimal_witness :
    ("InvokeRole" ∉ sampleOptions.scopeChildren) ∧
    Except.map (fun r => r.invokeRole.policyStatements)
      (bind ⟨none, some sampleBus⟩ sampleOptions) =
    Except.ok [⟨Effect.allow, "AllowEventBridgePutEvents", ["events:PutEvents"],
      ["arn:aws:events:us-east-1:123456789012:event-bus/my-bus"]⟩] :=
  ⟨by decide,
    bind_policy_statement_minimal ⟨none, some sampleBus⟩ sampleOptions
      (by decide)⟩

/-- Claim C5: every bind creates exactly one new role (the scope gains the
single child `InvokeRole`, also when an event bus is supplied), attaches
exactly one policy statement to it, and the role's trust policy is the
single statement letting `apigateway.amazonaws.com` perform
`sts:AssumeRole`. -/
theorem bind_creates_single_role (props : HttpEventBridgeIntegrationProps)
    (options : HttpRouteIntegrationBindOptions)
    (hfresh : "InvokeRole" ∉ options.scopeChildren) :
    Except.map (fun r => (r.scopeChildren, r.invokeRole.assumeRolePolicy,
        r.invokeRole.policyStatements.length))
      (bind props options) =
    Except.ok (options.scopeChildren ++ ["InvokeRole"],
      [⟨"sts:AssumeRole", Effect.allow, "apigateway.amazonaws.com"⟩], 1) := by
  rw [bind_ok_of_fresh _ _ hfresh]; rfl

/-- Witness for claim C5 at a concrete event bus and fresh scope. -/
theorem bind_creates_single_role_witness :
    ("InvokeRole" ∉ sampleOptions.scopeChildren) ∧
    Except.map (fun r => (r.scopeChildren, r.invokeRole.assumeRolePolicy,
        r.invokeRole.policyStatements.length))
      (bind ⟨none, some sampleBus⟩ sampleOptions) =
    Except.ok (["InvokeRole"],
      [⟨"sts:AssumeRole", Effect.allow, "apigateway.amazonaws.com"⟩], 1) :=
  ⟨by decide,
    bind_creates_single_role ⟨none, some sampleBus⟩ sampleOptions (by decide)⟩

/-- Claim C6: every bind returns a config with payload format version
`1.0`, type `AWS_PROXY`, subtype `EventBridge-PutEvents`, connection type
`INTERNET`, and with the role created in the same invocation as its
credentials. -/
theorem bind_config_fixed_fields (props : HttpEventBridgeIntegrationProps)
    (options : HttpRouteIntegrationBindOptions)
    (hfresh : "InvokeRole" ∉ options.scopeChildren) :
    Except.map (fun r => (r.config.payloadFormatVersion, r.config.type,
        r.config.subtype, r.config.connectionType))
      (bind props options) =
      Except.ok ("1.0", "AWS_PROXY", "EventBridge-PutEvents", "INTERNET") ∧
    Except.map (fun r => r.config.credentials) (bind props options) =
      Except.map (fun r => r.invokeRole) (bind props options) := by
  rw [bind_ok_of_fresh _ _ hfresh]; exact ⟨rfl, rfl⟩

/-- Witness for claim C6 with no event bus and no custom mapping. -/
theorem bind_config_fixed_fields_witness :
    ("InvokeRole" ∉ sampleOptions.scopeChildren) ∧
    (Except.map (fun r => (r.config.payloadFormatVersion, r.config.type,
        r.config.subtype, r.config.connectionType))
      (bind ⟨none, none⟩ sampleOptions) =
      Except.ok ("1.0", "AWS_PROXY", "EventBridge-PutEvents", "INTERNET") ∧
    Except.map (fun r => r.config.credentials) (bind ⟨none, none⟩ sampleOptions) =
      Except.map (fun r => r.invokeRole) (bind ⟨none, none⟩ sampleOptions)) :=
  ⟨by decide, bind_config_fixed_fields ⟨none, none⟩ sampleOptions (by decide)⟩

/-- Claim C7: with no custom mapping and an event bus imported by ARN
only, the default mapping's `EventBusName` value is the resource name
parsed out of that ARN. -/
theorem bind_imported_bus_name_parsed_from_arn (arn : String)
    (options : HttpRouteIntegrationBindOptions)
    (hfresh : "InvokeRole" ∉ options.scopeChildren) :
    Except.map (fun r => r.config.parameterMapping.mappings)
      (bind ⟨none, some (fromEventBusArn arn)⟩ options) =
    Except.ok [("Detail", "$request.body.Detail"),
      ("DetailType", "$request.body.DetailType"),
      ("Source", "$request.body.Source"),
      ("EventBusName", parseEventBusNameFromArn arn)] := by
  rw [bind_ok_of_fresh _ _ hfresh]; rfl

/-- Witness for claim C7 at the spec's concrete imported-bus ARN: the
parsed name is `my-event-bus`. -/
theorem bind_imported_bus_name_parsed_from_arn_witness :
    ("InvokeRole" ∉ sampleOptions.scopeChildren) ∧
    Except.map (fun r => r.config.parameterMapping.mappings)
      (bind ⟨none, some (fromEventBusArn
        "arn:aws:events:us-east-1:123456789012:event-bus/my-event-bus")⟩
        sampleOptions) =
    Except.ok [("Detail", "$request.body.Detail"),
      ("DetailType", "$request.body.DetailType"),
      ("Source", "$request.body.Source"),
      ("EventBusName", "my-event-bus")] :=
  ⟨by decide,
    bind_imported_bus_name_parsed_from_arn
      "arn:aws:events:us-east-1:123456789012:event-bus/my-event-bus"
      sampleOptions (by decide)⟩

/-- Claim C8: bind defines no error conditions of its own: for every
combination of the optional inputs (event bus present or absent, custom
mapping present or absent) it succeeds on a fresh scope and returns the
config computed by the total pure function `bindPure`. -/
theorem bind_total_no_error_conditions (props : HttpEventBridgeIntegrationProps)
    (options : HttpRouteIntegrationBindOptions)
    (hfresh : "InvokeRole" ∉ options.scopeChildren) :
    bind props options = Except.ok (bindPure props options) :=
  bind_ok_of_fresh props options hfresh

/-- Witness for claim C8 over all four combinations of the optional
inputs. -/
theorem bind_total_no_error_conditions_witness :
    ("InvokeRole" ∉ sampleOptions.scopeChildren) ∧
    bind ⟨none, none⟩ sampleOptions =
      Except.ok (bindPure ⟨none, none⟩ sampleOptions) ∧
    bind ⟨none, some sampleBus⟩ sampleOptions =
      Except.ok (bindPure ⟨none, some sampleBus⟩ sampleOptions) ∧
    bind ⟨some sampleMapping, none⟩ sampleOptions =
      Except.ok (bindPure ⟨some sampleMapping, none⟩ sampleOptions) ∧
    bind ⟨some sampleMapping, some sampleBus⟩ sampleOptions =
      Except.ok (bindPure ⟨some sampleMapping, some sampleBus⟩ sampleOptions) :=
  ⟨by decide,
    bind_total_no_error_conditions _ sampleOptions (by decide),
    bind_total_no_error_conditions _ sampleOptions (by decide),
    bind_total_no_error_conditions _ sampleOptions (by decide),
    bind_total_no_error_conditions _ sampleOptions (by decide)⟩

/-- Claim C9: bind is deterministic: two invocations with equal props and
equal bind options return equal results. -/
theorem bind_deterministic (props1 props2 : HttpEventBridgeIntegrationProps)
    (options1 options2 : HttpRouteIntegrationBindOptions)
    (hp : props1 = props2) (ho : options1 = options2) :
    bind props1 options1 = bind props2 options2 := by
  rw [hp, ho]

/-- Witness for claim C9 at concrete equal inputs. -/
theorem bind_deterministic_witness :
    (⟨none, some sampleBus⟩ : HttpEventBridgeIntegrationProps) =
      ⟨none, some sampleBus⟩ ∧
    bind ⟨none, some sampleBus⟩ sampleOptions =
      bind ⟨none, some sampleBus⟩ sampleOptions :=
  ⟨rfl, bind_deterministic _ _ sampleOptions sampleOptions rfl rfl⟩

/-- Claim C10: the role's construct id is the fixed string `InvokeRole`,
so bind succeeds only when the scope has no child of that name: a second
bind on the scope produced by a first bind fails with the
duplicate-construct-id error, and bind on a scope already containing
`InvokeRole` fails the same way. -/
theorem bind_invoke_role_id_collision
    (props props2 : HttpEventBridgeIntegrationProps)
    (options : HttpRouteIntegrationBindOptions) :
    ("InvokeRole" ∉ options.scopeChildren →
      Except.map (fun r => (r.invokeRole.constructId,
          bind props2 ⟨r.scopeChildren, options.stack⟩))
        (bind props options) =
      Except.ok ("InvokeRole",
        Except.error "There is already a Construct with name InvokeRole")) ∧
    ("InvokeRole" ∈ options.scopeChildren →
      bind props options =
        Except.error "There is already a Construct with name InvokeRole") := by
  constructor
  · intro h
    rw [bind_ok_of_fresh _ _ h]
    have hdup : "InvokeRole" ∈ (bindPure props options).scopeChildren := by
      simp [bindPure]
    show Except.ok ((bindPure props options).invokeRole.constructId,
      bind props2 ⟨(bindPure props options).scopeChildren, options.stack⟩) = _
    rw [bind_error_of_dup props2 _ hdup]
    rfl
  · intro h
    exact bind_error_of_dup props options h

/-- Witness for claim C10: binding twice under the same scope, the second
invocation fails with the duplicate-construct-id error. -/
theorem bind_invoke_role_id_collision_witness :
    Except.map (fun r => (r.invokeRole.constructId,
        bind ⟨none, none⟩ ⟨r.scopeChildren, sampleStack⟩))
      (bind ⟨none, some sampleBus⟩ sampleOptions) =
    Except.ok ("InvokeRole",
      Except.error "There is already a Construct with name InvokeRole") :=
  (bind_invoke_role_id_collision ⟨none, some sampleBus⟩ ⟨none, none⟩
    sampleOptions).1 (by decide)

end AwsCdk
